import Mathlib

set_option maxHeartbeats 1000000

/- Shallow embedding of src/DXFtoJSONV12.py (the DXF-to-JSON converter).

   Modelling conventions:
   * Python floats carried in coordinates, rotations and scales are modelled
     as exact rationals; the two derived metrics (polyline length, shoelace
     area) live in the reals because Euclidean length involves square roots.
   * An attribute access on the external document model that may raise is
     modelled with Option (none = the access raises); an exception that
     escapes a function is modelled with Except Unit.
   * Python dict-shaped entities are modelled as a tagged variant with the
     same fields; the three kinds produced by entity_to_json are mutually
     exclusive in the source (a dict carries either "vertices" or "insert",
     never both), so the variant faithfully mirrors the key tests used by
     the offset pass. -/

-- ===== UNIT MAP (DXF_UNITS dict, lines 20-42) =====

def DXF_UNITS : Int → Option String
  | 0 => some "Unitless"
  | 1 => some "in"
  | 2 => some "ft"
  | 3 => some "mi"
  | 4 => some "mm"
  | 5 => some "cm"
  | 6 => some "m"
  | 7 => some "km"
  | 8 => some "µin"
  | 9 => some "mil"
  | 10 => some "yd"
  | 11 => some "Å"
  | 12 => some "nm"
  | 13 => some "µm"
  | 14 => some "dm"
  | 15 => some "dam"
  | 16 => some "hm"
  | 17 => some "Gm"
  | 18 => some "AU"
  | 19 => some "ly"
  | 20 => some "pc"
  | _ => none

-- ===== Python round(x, 4): round-half-to-even on the 4th decimal =====

open Classical in
noncomputable def pyRoundInt (x : ℝ) : ℤ :=
  if Int.fract x = 1 / 2 then 2 * round (x / 2) else round x

noncomputable def round4 (x : ℝ) : ℝ := (pyRoundInt (x * 10000) : ℝ) / 10000

-- ===== MATH HELPERS (calculate_length, calculate_area; lines 48-66) =====

/-- math.hypot(x2 - x1, y2 - y1) for one consecutive pair. -/
noncomputable def segLen (a b : ℚ × ℚ) : ℝ :=
  Real.sqrt (((b.1 - a.1 : ℚ) : ℝ) ^ 2 + ((b.2 - a.2 : ℚ) : ℝ) ^ 2)

/-- The loop `for i in range(len(vertices) - 1)` summing consecutive distances. -/
noncomputable def distSum : List (ℚ × ℚ) → ℝ
  | a :: b :: rest => segLen a b + distSum (b :: rest)
  | _ => 0

noncomputable def calculate_length (vertices : List (ℚ × ℚ)) : ℝ :=
  if vertices.length < 2 then 0 else round4 (distSum vertices)

/-- Pairwise cross products x_i * y_j - x_j * y_i, zipping a list with its
rotation by one (j = (i + 1) % n, as in the source loop). -/
def crossSum : List (ℚ × ℚ) → List (ℚ × ℚ) → ℚ
  | p :: ps, q :: qs => (p.1 * q.2 - q.1 * p.2) + crossSum ps qs
  | _, _ => 0

def shoelace : List (ℚ × ℚ) → ℚ
  | [] => 0
  | a :: rest => crossSum (a :: rest) (rest ++ [a])

noncomputable def calculate_area (vertices : List (ℚ × ℚ)) : ℝ :=
  if vertices.length < 3 then 0 else round4 ((|shoelace vertices| / 2 : ℚ) : ℝ)

-- ===== COLOR HELPERS (get_entity_hex, _aci_to_hex; lines 82-94) =====

def hexDigitChar (n : Nat) : Char :=
  if n < 10 then Char.ofNat (48 + n) else Char.ofNat (87 + n)

/-- One byte printed with format 02x (two lowercase hex digits). -/
def hexByte (n : Nat) : String := String.mk [hexDigitChar (n / 16), hexDigitChar (n % 16)]

/-- ezdxf.colors.int2rgb: split a 24-bit integer into (r, g, b) byte fields. -/
def int2rgb (v : Nat) : Nat × Nat × Nat := (v / 65536 % 256, v / 256 % 256, v % 256)

/-- The format string "#" followed by three 02x bytes. -/
def rgbToHex (t : Nat × Nat × Nat) : String :=
  "#" ++ hexByte t.1 ++ hexByte t.2.1 ++ hexByte t.2.2

def _aci_to_hex (aci : Int) : String :=
  if aci < 0 ∨ 255 < aci then "#000000" else rgbToHex (int2rgb aci.toNat)

/-- The emptiness test `not content or content.strip() == ""` (line 122):
true exactly when the string has no non-whitespace character. -/
def pyBlank (s : String) : Bool := s.data.all (fun c => c.isWhitespace)

-- ===== RAW DOCUMENT MODEL (the ezdxf-facing interface) =====

/-- The attribute bundle a raw entity exposes.  Fields whose access in the
source may raise (text content, insertion point, rotation, block name,
flattened path) are Options: none models a raising access.  Fields read
through dxf.get with a default, or fields ezdxf always supplies, are plain
values or Options consumed with getD. -/
structure RawProps where
  dxftype : String
  layer : String
  handle : String
  hasTrueColor : Bool
  true_color : Nat
  color : Int
  linetype : Option String
  lineweight : Option Int
  textContent : Option String
  insert : Option (ℚ × ℚ)
  rotation : Option ℚ
  name : Option String
  xscale : Option ℚ
  yscale : Option ℚ
  zscale : Option ℚ
  flatten : Option (List (ℚ × ℚ))

/-- A raw entity: its attributes plus the attached ATTRIB sub-entities
(entity.attribs, nonempty only for INSERT in real documents). -/
inductive RawDxf : Type where
  | mk (props : RawProps) (attribs : List RawDxf)

def RawDxf.props : RawDxf → RawProps
  | .mk p _ => p

def RawDxf.dxftype (e : RawDxf) : String := e.props.dxftype

def get_entity_hex (p : RawProps) : Option String :=
  if p.hasTrueColor then some (rgbToHex (int2rgb p.true_color))
  else if p.color = 256 then none
  else some (_aci_to_hex p.color)

-- ===== NORMALIZED ENTITY MODEL (the dicts built by entity_to_json) =====

/-- The shared header fields written at lines 106-113. -/
structure CommonF where
  type : String
  layer : String
  color_hex : Option String
  linetype : String
  lineweight : Int
  id : String
deriving DecidableEq

inductive Entity : Type where
  | text (c : CommonF) (text : String) (insert : ℚ × ℚ) (rotation : ℚ)
  | insert (c : CommonF) (block_name : String) (insert : ℚ × ℚ) (rotation : ℚ)
      (scale : ℚ × ℚ × ℚ) (attributes : List Entity)
  | geometry (c : CommonF) (lenKey areaKey : String) (length area : ℝ)
      (vertices : List (ℚ × ℚ)) (vertex_count : Nat)

def commonOf (p : RawProps) : CommonF :=
  { type := p.dxftype, layer := p.layer, color_hex := get_entity_hex p,
    linetype := p.linetype.getD "Continuous", lineweight := p.lineweight.getD (-1),
    id := p.handle }

/-- The TEXT/MTEXT/ATTRIB/ATTDEF branch (lines 116-131).  The try block
covers content, insert and rotation extraction and the emptiness test, so a
raising access yields none, exactly like empty text. -/
def textJson (p : RawProps) (data : CommonF) : Option Entity :=
  match p.textContent, p.insert with
  | some content, some ins =>
      if pyBlank content then none
      else some (.text data content ins (p.rotation.getD 0))
  | _, _ => none

/-- The geometry branch (lines 155-173).  flatten = none models
make_path/flattening raising (caught); an empty vertex list is dropped. -/
noncomputable def geomJson (p : RawProps) (data : CommonF) (unit_name : String) : Option Entity :=
  match p.flatten with
  | none => none
  | some v_list =>
      if v_list.isEmpty then none
      else some (.geometry data ("length (" ++ unit_name ++ ")")
        ("area (" ++ unit_name ++ "^2)")
        (calculate_length v_list) (calculate_area v_list) v_list v_list.length)

mutual

/-- entity_to_json (lines 97-173).  Except.error models an exception
escaping the function: the INSERT branch (lines 134-152) has no try/except,
so a raising access to name, insert or rotation there propagates, as does
an error from the recursive normalization of an attached attribute. -/
noncomputable def entity_to_json : RawDxf → String → Except Unit (Option Entity)
  | .mk p attribs, unit_name =>
    let data := commonOf p
    if p.dxftype = "TEXT" ∨ p.dxftype = "MTEXT" ∨ p.dxftype = "ATTRIB" ∨ p.dxftype = "ATTDEF" then
      .ok (textJson p data)
    else if p.dxftype = "INSERT" then
      match p.name, p.insert, p.rotation with
      | some nm, some ins, some rot =>
        match entsToJson attribs unit_name with
        | .error er => .error er
        | .ok ats =>
          .ok (some (.insert data nm ins rot
            (p.xscale.getD 1, p.yscale.getD 1, p.zscale.getD 1) ats))
      | _, _, _ => .error ()
    else
      .ok (geomJson p data unit_name)

/-- The collection loop `for e in ...: if e_data: append` shared by the
attribute loop (147-151), the block loop (206-209) and the modelspace loop
(216-219); an escaping exception aborts the whole loop. -/
noncomputable def entsToJson : List RawDxf → String → Except Unit (List Entity)
  | [], _ => .ok []
  | e :: rest, unit_name =>
    match entity_to_json e unit_name with
    | .error er => .error er
    | .ok r =>
      match entsToJson rest unit_name with
      | .error er => .error er
      | .ok rs => .ok (match r with | some x => x :: rs | none => rs)

end

-- ===== OFFSET PASS (parse_dxf steps 4 and 5, lines 221-248) =====

/-- Coordinate collection per entity (lines 223-230): the vertices key if
present, elif the insert key; attribute insertion points are not visited. -/
def entityCoords : Entity → List (ℚ × ℚ)
  | .text _ _ ins _ => [ins]
  | .insert _ _ ins _ _ _ => [ins]
  | .geometry _ _ _ _ _ vs _ => vs

def allCoords : List Entity → List (ℚ × ℚ)
  | [] => []
  | e :: es => entityCoords e ++ allCoords es

/-- Offset computation (lines 232-236): (0, 0) when no coordinate was
collected, else the negated bounding-box center. -/
def computeOffset (l : List Entity) : ℚ × ℚ :=
  let xs := (allCoords l).map Prod.fst
  let ys := (allCoords l).map Prod.snd
  match xs.min?, xs.max?, ys.min?, ys.max? with
  | some mnx, some mxx, some mny, some mxy =>
      (-((mnx + mxx) / 2), -((mny + mxy) / 2))
  | _, _, _, _ => (0, 0)

def shiftP (off p : ℚ × ℚ) : ℚ × ℚ := (p.1 + off.1, p.2 + off.2)

/-- One iteration of the attribute loop (lines 246-248): the attribute dict
gets its insert key shifted.  A geometry-shaped dict has no insert key, so
the subscript would raise KeyError: modelled as none.  Nested attributes of
an INSERT-shaped attribute are not visited. -/
def shiftAttrOne (off : ℚ × ℚ) : Entity → Option Entity
  | .text c t ins r => some (.text c t (shiftP off ins) r)
  | .insert c n ins r s ats => some (.insert c n (shiftP off ins) r s ats)
  | .geometry _ _ _ _ _ _ _ => none

def shiftAttrs (off : ℚ × ℚ) : List Entity → Option (List Entity)
  | [] => some []
  | a :: as =>
    match shiftAttrOne off a, shiftAttrs off as with
    | some a1, some as1 => some (a1 :: as1)
    | _, _ => none

/-- Offset application to one modelspace entity (lines 239-248). -/
def applyOffsetEntity (off : ℚ × ℚ) : Entity → Option Entity
  | .text c t ins r => some (.text c t (shiftP off ins) r)
  | .insert c n ins r s ats =>
    match shiftAttrs off ats with
    | some ats1 => some (.insert c n (shiftP off ins) r s ats1)
    | none => none
  | .geometry c lk ak len ar vs cnt =>
    some (.geometry c lk ak len ar (vs.map (shiftP off)) cnt)

def applyOffsetList (off : ℚ × ℚ) : List Entity → Option (List Entity)
  | [] => some []
  | e :: es =>
    match applyOffsetEntity off e, applyOffsetList off es with
    | some e1, some es1 => some (e1 :: es1)
    | _, _ => none

-- ===== LAYERS, BLOCKS AND THE DOCUMENT (parse_dxf, lines 179-258) =====

structure RawLayer where
  name : String
  rgb : Option (Nat × Nat × Nat)
  color : Int
  frozen : Bool
  locked : Bool

structure RawBlock where
  name : String
  entities : List RawDxf

structure RawDoc where
  insunits : Option Int
  layers : List RawLayer
  blocks : List RawBlock
  modelspace : List RawDxf

/-- get_layer_hex (lines 72-79); an unknown name raises ValueError which is
caught and mapped to "#000000". -/
def get_layer_hex (layers : List RawLayer) (layer_name : String) : String :=
  match layers.find? (fun L => L.name = layer_name) with
  | none => "#000000"
  | some L =>
    match L.rgb with
    | some t => rgbToHex t
    | none => _aci_to_hex L.color

structure LayerInfo where
  color : String
  frozen : Bool
  locked : Bool
deriving DecidableEq

/-- name.startswith("*") for the one-character anonymous-block marker:
true exactly when the first character is the marker. -/
def startsStar (s : String) : Bool :=
  match s.data with
  | [] => false
  | c :: _ => c = '*'

/-- Block-table extraction (lines 201-211): skip names starting with "*",
normalize the contained entities, keep the block only when at least one
entity survived. -/
noncomputable def blocks_to_json : List RawBlock → String → Except Unit (List (String × List Entity))
  | [], _ => .ok []
  | b :: rest, unit_name =>
    if startsStar b.name then blocks_to_json rest unit_name
    else
      match entsToJson b.entities unit_name with
      | .error er => .error er
      | .ok es =>
        match blocks_to_json rest unit_name with
        | .error er => .error er
        | .ok bs => .ok (if es.isEmpty then bs else (b.name, es) :: bs)

structure CADDocument where
  filename : String
  units : String
  unit_code : Int
  offset : ℚ × ℚ
  layers : List (String × LayerInfo)
  blocks : List (String × List Entity)
  entities : List Entity

/-- unit_name as computed at lines 188-189: doc.header.get with default 0,
then the unit table with default "Unitless". -/
def unitNameOf (doc : RawDoc) : String := (DXF_UNITS (doc.insunits.getD 0)).getD "Unitless"

/-- The layer table pass (lines 192-198). -/
def layersOf (doc : RawDoc) : List (String × LayerInfo) :=
  doc.layers.map (fun L =>
    (L.name, LayerInfo.mk (get_layer_hex doc.layers L.name) L.frozen L.locked))

/-- parse_dxf (lines 179-258) on an already-read document (ezdxf.readfile
and printing are I/O, outside this core).  An exception escaping any of the
per-entity loops aborts the conversion with no document. -/
noncomputable def parse_dxf (filename : String) (doc : RawDoc) : Except Unit CADDocument :=
  match blocks_to_json doc.blocks (unitNameOf doc) with
  | .error er => .error er
  | .ok blocks =>
    match entsToJson doc.modelspace (unitNameOf doc) with
    | .error er => .error er
    | .ok entities =>
      match applyOffsetList (computeOffset entities) entities with
      | none => .error ()
      | some entities1 =>
        .ok { filename := filename, units := unitNameOf doc,
              unit_code := doc.insunits.getD 0,
              offset := computeOffset entities, layers := layersOf doc,
              blocks := blocks, entities := entities1 }

-- ===== PROJECTIONS AND INVARIANTS USED BY THE CLAIMS =====

def exceptOk {α : Type} : Except Unit α → Bool
  | .ok _ => true
  | .error _ => false

def Entity.vcount? : Entity → Option Nat
  | .geometry _ _ _ _ _ _ n => some n
  | _ => none

def Entity.verts? : Entity → Option (List (ℚ × ℚ))
  | .geometry _ _ _ _ _ vs _ => some vs
  | _ => none

/-- The structural invariant normalization establishes on geometry dicts:
the stored count is the vertex-list length and the list is nonempty. -/
def goodE : Entity → Prop
  | .geometry _ _ _ _ _ vs n => n = vs.length ∧ vs ≠ []
  | _ => True

/-- An entity with every coordinate field erased: what the offset pass must
leave untouched. -/
inductive Stripped : Type where
  | text (c : CommonF) (text : String) (rotation : ℚ)
  | insert (c : CommonF) (block_name : String) (rotation : ℚ)
      (scale : ℚ × ℚ × ℚ) (attributes : List Stripped)
  | geometry (c : CommonF) (lenKey areaKey : String) (length area : ℝ)
      (vertex_count : Nat)

mutual

def stripE : Entity → Stripped
  | .text c t _ r => .text c t r
  | .insert c n _ r s ats => .insert c n r s (stripL ats)
  | .geometry c lk ak len ar _ cnt => .geometry c lk ak len ar cnt

def stripL : List Entity → List Stripped
  | [] => []
  | e :: es => stripE e :: stripL es

end

def negP (p : ℚ × ℚ) : ℚ × ℚ := (-p.1, -p.2)

-- ===== CONCRETE INPUTS FOR WITNESSES AND COUNTEREXAMPLES =====

def mkTextRaw (h t : String) (ins : ℚ × ℚ) : RawDxf :=
  .mk { dxftype := "TEXT", layer := "0", handle := h, hasTrueColor := false,
        true_color := 0, color := 256, linetype := none, lineweight := none,
        textContent := some t, insert := some ins, rotation := some 0,
        name := none, xscale := none, yscale := none, zscale := none,
        flatten := none } []

/-- A TEXT entity whose text-attribute access raises; the failure is inside
the guarded branch, so the entity is dropped. -/
def mkBadTextRaw (h : String) : RawDxf :=
  .mk { dxftype := "TEXT", layer := "0", handle := h, hasTrueColor := false,
        true_color := 0, color := 256, linetype := none, lineweight := none,
        textContent := none, insert := some (0, 0), rotation := some 0,
        name := none, xscale := none, yscale := none, zscale := none,
        flatten := none } []

/-- An INSERT whose insert-attribute access raises; the INSERT branch has no
try/except, so the exception escapes entity_to_json. -/
def mkBadInsertRaw (h : String) : RawDxf :=
  .mk { dxftype := "INSERT", layer := "0", handle := h, hasTrueColor := false,
        true_color := 0, color := 256, linetype := none, lineweight := none,
        textContent := none, insert := none, rotation := some 0,
        name := some "B", xscale := none, yscale := none, zscale := none,
        flatten := none } []

def mkGeoRaw (h : String) (vs : List (ℚ × ℚ)) : RawDxf :=
  .mk { dxftype := "LINE", layer := "0", handle := h, hasTrueColor := false,
        true_color := 0, color := 256, linetype := none, lineweight := none,
        textContent := none, insert := none, rotation := none,
        name := none, xscale := none, yscale := none, zscale := none,
        flatten := some vs } []

def textEnt (h t : String) (ins : ℚ × ℚ) : Entity :=
  .text ⟨"TEXT", "0", none, "Continuous", -1, h⟩ t ins 0

/-- Ten modelspace entities with entity number 5 failing inside the guarded
text branch. -/
def c1okDoc : RawDoc :=
  { insunits := none, layers := [], blocks := [],
    modelspace := [mkTextRaw "h1" "t" (1, 2), mkTextRaw "h2" "t" (1, 2),
      mkTextRaw "h3" "t" (1, 2), mkTextRaw "h4" "t" (1, 2),
      mkBadTextRaw "h5",
      mkTextRaw "h6" "t" (1, 2), mkTextRaw "h7" "t" (1, 2),
      mkTextRaw "h8" "t" (1, 2), mkTextRaw "h9" "t" (1, 2),
      mkTextRaw "h10" "t" (1, 2)] }

/-- Ten modelspace entities with entity number 5 failing inside the
unguarded INSERT branch. -/
def c1badDoc : RawDoc :=
  { insunits := none, layers := [], blocks := [],
    modelspace := [mkTextRaw "h1" "t" (1, 2), mkTextRaw "h2" "t" (1, 2),
      mkTextRaw "h3" "t" (1, 2), mkTextRaw "h4" "t" (1, 2),
      mkBadInsertRaw "h5",
      mkTextRaw "h6" "t" (1, 2), mkTextRaw "h7" "t" (1, 2),
      mkTextRaw "h8" "t" (1, 2), mkTextRaw "h9" "t" (1, 2),
      mkTextRaw "h10" "t" (1, 2)] }

/-- A geometry entity whose flattening yields exactly one point. -/
def c3badDoc : RawDoc :=
  { insunits := none, layers := [], blocks := [],
    modelspace := [mkGeoRaw "g1" [(5, 5)]] }

def c3wDoc : RawDoc :=
  { insunits := none, layers := [], blocks := [],
    modelspace := [mkGeoRaw "g2" [(7, 3)]] }

def c3wEnt : Entity :=
  .geometry ⟨"LINE", "0", none, "Continuous", -1, "g2"⟩ "length (Unitless)"
    "area (Unitless^2)" 0 0 [(0, 0)] 1

def c3wOut : CADDocument :=
  { filename := "f", units := "Unitless", unit_code := 0, offset := (-7, -3),
    layers := [], blocks := [], entities := [c3wEnt] }

def c4wProps : RawProps :=
  { dxftype := "CIRCLE", layer := "0", handle := "c4", hasTrueColor := true,
    true_color := 16744512, color := 256, linetype := none, lineweight := none,
    textContent := none, insert := none, rotation := none, name := none,
    xscale := none, yscale := none, zscale := none, flatten := none }

def c4wProps2 : RawProps :=
  { dxftype := "CIRCLE", layer := "0", handle := "c5", hasTrueColor := false,
    true_color := 0, color := 300, linetype := none, lineweight := none,
    textContent := none, insert := none, rotation := none, name := none,
    xscale := none, yscale := none, zscale := none, flatten := none }

def c6wRaw : RawDxf := mkTextRaw "w1" "A-101" (10, 5)

def c6blankRaw : RawDxf := mkTextRaw "w2" "   " (0, 0)

def c2wRaws : List RawDxf := [mkTextRaw "a2" "t" (2, 6)]

def c7wRaws : List RawDxf := [mkTextRaw "a7" "t" (4, 10)]

def c8wDoc : RawDoc :=
  { insunits := none, layers := [],
    blocks := [⟨"*Model_Space", [mkTextRaw "m1" "x" (0, 0)]⟩,
               ⟨"EMPTYB", [mkBadTextRaw "m2"]⟩,
               ⟨"B", [mkTextRaw "m3" "t" (1, 1)]⟩],
    modelspace := [] }

def c8wOut : CADDocument :=
  { filename := "f", units := "Unitless", unit_code := 0, offset := (0, 0),
    layers := [], blocks := [("B", [textEnt "m3" "t" (1, 1)])], entities := [] }

def c9wDoc : RawDoc :=
  { insunits := none, layers := [], blocks := [],
    modelspace := [mkTextRaw "a9" "t" (6, 2)] }

def c9wOut : CADDocument :=
  { filename := "f", units := "Unitless", unit_code := 0, offset := (-6, -2),
    layers := [], blocks := [], entities := [textEnt "a9" "t" (0, 0)] }

def c10wDoc : RawDoc :=
  { insunits := none, layers := [], blocks := [],
    modelspace := [mkTextRaw "a10" "t" (10, 4)] }

def c10wOut : CADDocument :=
  { filename := "f", units := "Unitless", unit_code := 0, offset := (-10, -4),
    layers := [], blocks := [], entities := [textEnt "a10" "t" (0, 0)] }

-- ===== GENERAL HELPER LEMMAS =====

theorem foldl_min_shift (c : ℚ) : ∀ (l : List ℚ) (a : ℚ),
    (l.map (fun x => x + c)).foldl min (a + c) = l.foldl min a + c := by
  intro l
  induction l with
  | nil => intro a; rfl
  | cons b t ih =>
    intro a
    simp only [List.map_cons, List.foldl_cons]
    rw [min_add_add_right]
    exact ih (min a b)

theorem foldl_max_shift (c : ℚ) : ∀ (l : List ℚ) (a : ℚ),
    (l.map (fun x => x + c)).foldl max (a + c) = l.foldl max a + c := by
  intro l
  induction l with
  | nil => intro a; rfl
  | cons b t ih =>
    intro a
    simp only [List.map_cons, List.foldl_cons]
    rw [max_add_add_right]
    exact ih (max a b)

theorem min?_shift (c : ℚ) (l : List ℚ) :
    (l.map (fun x => x + c)).min? = l.min?.map (fun x => x + c) := by
  cases l with
  | nil => rfl
  | cons a t =>
    simp only [List.map_cons, List.min?, Option.map_some']
    rw [foldl_min_shift]

theorem max?_shift (c : ℚ) (l : List ℚ) :
    (l.map (fun x => x + c)).max? = l.max?.map (fun x => x + c) := by
  cases l with
  | nil => rfl
  | cons a t =>
    simp only [List.map_cons, List.max?, Option.map_some']
    rw [foldl_max_shift]

theorem round4_intCast (n : ℤ) : round4 ((n : ℝ)) = (n : ℝ) := by
  unfold round4 pyRoundInt
  have h1 : ((n : ℝ) * 10000) = ((n * 10000 : ℤ) : ℝ) := by push_cast; ring
  rw [h1, Int.fract_intCast, if_neg (by norm_num), round_intCast]
  push_cast
  ring

-- ===== NORMALIZATION INVARIANT =====

theorem entity_to_json_good : ∀ (e : RawDxf) (u : String) (ent : Entity),
    entity_to_json e u = .ok (some ent) → goodE ent := by
  intro e u ent h
  obtain ⟨p, ats⟩ := e
  simp only [entity_to_json] at h
  split_ifs at h with h1 h2
  · simp only [Except.ok.injEq] at h
    unfold textJson at h
    split at h
    · split_ifs at h
      simp only [Option.some.injEq] at h
      subst h
      trivial
    · simp at h
  · split at h
    · split at h
      · simp at h
      · simp only [Except.ok.injEq, Option.some.injEq] at h
        subst h
        trivial
    · simp at h
  · simp only [Except.ok.injEq] at h
    unfold geomJson at h
    split at h
    · simp at h
    · rename_i vs heq
      split_ifs at h with h3
      simp only [Option.some.injEq] at h
      subst h
      exact ⟨rfl, by simpa using h3⟩

theorem entsToJson_mem : ∀ (raws : List RawDxf) (u : String) (l : List Entity),
    entsToJson raws u = .ok l → ∀ ent ∈ l, ∃ e, entity_to_json e u = .ok (some ent) := by
  intro raws
  induction raws with
  | nil =>
    intro u l h ent hm
    simp only [entsToJson, Except.ok.injEq] at h
    subst h
    simp at hm
  | cons e rest ih =>
    intro u l h ent hm
    simp only [entsToJson] at h
    split at h
    · simp at h
    · rename_i r he
      split at h
      · simp at h
      · rename_i rs hr
        simp only [Except.ok.injEq] at h
        cases r with
        | none =>
          simp only at h
          subst h
          exact ih u rs hr ent hm
        | some x =>
          simp only at h
          subst h
          rcases List.mem_cons.mp hm with h1 | h1
          · subst h1
            exact ⟨e, he⟩
          · exact ih u rs hr ent h1

theorem entsToJson_good (raws : List RawDxf) (u : String) (l : List Entity)
    (h : entsToJson raws u = .ok l) : ∀ ent ∈ l, goodE ent := by
  intro ent hm
  obtain ⟨e, he⟩ := entsToJson_mem raws u l h ent hm
  exact entity_to_json_good e u ent he

theorem goodE_coords (ent : Entity) (h : goodE ent) : entityCoords ent ≠ [] := by
  cases ent with
  | text c t ins r => simp [entityCoords]
  | insert c n ins r s ats => simp [entityCoords]
  | geometry c lk ak len ar vs cnt => simpa [entityCoords] using h.2

-- ===== OFFSET-PASS LEMMAS =====

theorem applyOffsetEntity_coords (off : ℚ × ℚ) (e e1 : Entity)
    (h : applyOffsetEntity off e = some e1) :
    entityCoords e1 = (entityCoords e).map (shiftP off) := by
  cases e with
  | text c t ins r =>
    simp only [applyOffsetEntity, Option.some.injEq] at h
    subst h
    simp [entityCoords]
  | insert c n ins r s ats =>
    simp only [applyOffsetEntity] at h
    split at h
    · rename_i ats1 hs
      simp only [Option.some.injEq] at h
      subst h
      simp [entityCoords]
    · simp at h
  | geometry c lk ak len ar vs cnt =>
    simp only [applyOffsetEntity, Option.some.injEq] at h
    subst h
    simp [entityCoords]

theorem applyOffsetList_coords (off : ℚ × ℚ) : ∀ (l l1 : List Entity),
    applyOffsetList off l = some l1 →
    allCoords l1 = (allCoords l).map (shiftP off) := by
  intro l
  induction l with
  | nil =>
    intro l1 h
    simp only [applyOffsetList, Option.some.injEq] at h
    subst h
    rfl
  | cons e es ih =>
    intro l1 h
    simp only [applyOffsetList] at h
    split at h
    · rename_i e1 es1 he hes
      simp only [Option.some.injEq] at h
      subst h
      simp only [allCoords, List.map_append]
      rw [applyOffsetEntity_coords off e e1 he, ih es1 hes]
    · simp at h

theorem applyOffsetList_mem (off : ℚ × ℚ) : ∀ (l l1 : List Entity),
    applyOffsetList off l = some l1 →
    ∀ e1 ∈ l1, ∃ e ∈ l, applyOffsetEntity off e = some e1 := by
  intro l
  induction l with
  | nil =>
    intro l1 h e1 hm
    simp only [applyOffsetList, Option.some.injEq] at h
    subst h
    simp at hm
  | cons e es ih =>
    intro l1 h e1 hm
    simp only [applyOffsetList] at h
    split at h
    · rename_i e2 es1 he hes
      simp only [Option.some.injEq] at h
      subst h
      rcases List.mem_cons.mp hm with h1 | h1
      · subst h1
        exact ⟨e, List.mem_cons_self e es, he⟩
      · obtain ⟨e0, hmem, happ⟩ := ih es1 hes e1 h1
        exact ⟨e0, List.mem_cons_of_mem e hmem, happ⟩
    · simp at h

theorem applyOffsetEntity_good (off : ℚ × ℚ) (e e1 : Entity)
    (h : applyOffsetEntity off e = some e1) (hg : goodE e) : goodE e1 := by
  cases e with
  | text c t ins r =>
    simp only [applyOffsetEntity, Option.some.injEq] at h
    subst h
    trivial
  | insert c n ins r s ats =>
    simp only [applyOffsetEntity] at h
    split at h
    · simp only [Option.some.injEq] at h
      subst h
      trivial
    · simp at h
  | geometry c lk ak len ar vs cnt =>
    simp only [applyOffsetEntity, Option.some.injEq] at h
    subst h
    obtain ⟨h1, h2⟩ := hg
    exact ⟨by simpa using h1, by simpa using h2⟩

theorem shiftAttrOne_strip (off : ℚ × ℚ) (a a1 : Entity)
    (h : shiftAttrOne off a = some a1) : stripE a1 = stripE a := by
  cases a with
  | text c t ins r =>
    simp only [shiftAttrOne, Option.some.injEq] at h
    subst h
    rfl
  | insert c n ins r s ats =>
    simp only [shiftAttrOne, Option.some.injEq] at h
    subst h
    rfl
  | geometry c lk ak len ar vs cnt => simp [shiftAttrOne] at h

theorem shiftAttrs_strip (off : ℚ × ℚ) : ∀ (ats ats1 : List Entity),
    shiftAttrs off ats = some ats1 → stripL ats1 = stripL ats := by
  intro ats
  induction ats with
  | nil =>
    intro ats1 h
    simp only [shiftAttrs, Option.some.injEq] at h
    subst h
    rfl
  | cons a as ih =>
    intro ats1 h
    simp only [shiftAttrs] at h
    split at h
    · rename_i a1 as1 ha has
      simp only [Option.some.injEq] at h
      subst h
      simp only [stripL]
      rw [shiftAttrOne_strip off a a1 ha, ih as1 has]
    · simp at h

theorem applyOffsetEntity_strip (off : ℚ × ℚ) (e e1 : Entity)
    (h : applyOffsetEntity off e = some e1) : stripE e1 = stripE e := by
  cases e with
  | text c t ins r =>
    simp only [applyOffsetEntity, Option.some.injEq] at h
    subst h
    rfl
  | insert c n ins r s ats =>
    simp only [applyOffsetEntity] at h
    split at h
    · rename_i ats1 hs
      simp only [Option.some.injEq] at h
      subst h
      simp only [stripE]
      rw [shiftAttrs_strip off ats ats1 hs]
    · simp at h
  | geometry c lk ak len ar vs cnt =>
    simp only [applyOffsetEntity, Option.some.injEq] at h
    subst h
    rfl

theorem applyOffsetList_strip (off : ℚ × ℚ) : ∀ (l l1 : List Entity),
    applyOffsetList off l = some l1 → stripL l1 = stripL l := by
  intro l
  induction l with
  | nil =>
    intro l1 h
    simp only [applyOffsetList, Option.some.injEq] at h
    subst h
    rfl
  | cons e es ih =>
    intro l1 h
    simp only [applyOffsetList] at h
    split at h
    · rename_i e1 es1 he hes
      simp only [Option.some.injEq] at h
      subst h
      simp only [stripL]
      rw [applyOffsetEntity_strip off e e1 he, ih es1 hes]
    · simp at h

theorem shiftP_cancel (off p : ℚ × ℚ) : shiftP (negP off) (shiftP off p) = p := by
  simp [shiftP, negP]

theorem shiftAttrOne_inv (off : ℚ × ℚ) (a a1 : Entity)
    (h : shiftAttrOne off a = some a1) : shiftAttrOne (negP off) a1 = some a := by
  cases a with
  | text c t ins r =>
    simp only [shiftAttrOne, Option.some.injEq] at h
    subst h
    simp [shiftAttrOne, shiftP_cancel]
  | insert c n ins r s ats =>
    simp only [shiftAttrOne, Option.some.injEq] at h
    subst h
    simp [shiftAttrOne, shiftP_cancel]
  | geometry c lk ak len ar vs cnt => simp [shiftAttrOne] at h

theorem shiftAttrs_inv (off : ℚ × ℚ) : ∀ (ats ats1 : List Entity),
    shiftAttrs off ats = some ats1 → shiftAttrs (negP off) ats1 = some ats := by
  intro ats
  induction ats with
  | nil =>
    intro ats1 h
    simp only [shiftAttrs, Option.some.injEq] at h
    subst h
    rfl
  | cons a as ih =>
    intro ats1 h
    simp only [shiftAttrs] at h
    split at h
    · rename_i a1 as1 ha has
      simp only [Option.some.injEq] at h
      subst h
      simp only [shiftAttrs]
      rw [shiftAttrOne_inv off a a1 ha, ih as1 has]
    · simp at h

theorem applyOffsetEntity_inv (off : ℚ × ℚ) (e e1 : Entity)
    (h : applyOffsetEntity off e = some e1) :
    applyOffsetEntity (negP off) e1 = some e := by
  cases e with
  | text c t ins r =>
    simp only [applyOffsetEntity, Option.some.injEq] at h
    subst h
    simp [applyOffsetEntity, shiftP_cancel]
  | insert c n ins r s ats =>
    simp only [applyOffsetEntity] at h
    split at h
    · rename_i ats1 hs
      simp only [Option.some.injEq] at h
      subst h
      simp only [applyOffsetEntity]
      rw [shiftAttrs_inv off ats ats1 hs]
      simp [shiftP_cancel]
    · simp at h
  | geometry c lk ak len ar vs cnt =>
    simp only [applyOffsetEntity, Option.some.injEq] at h
    subst h
    simp only [applyOffsetEntity, List.map_map, Option.some.injEq]
    have hid : (shiftP (negP off) ∘ shiftP off) = id := funext fun p => shiftP_cancel off p
    rw [hid, List.map_id]

theorem applyOffsetList_inv (off : ℚ × ℚ) : ∀ (l l1 : List Entity),
    applyOffsetList off l = some l1 → applyOffsetList (negP off) l1 = some l := by
  intro l
  induction l with
  | nil =>
    intro l1 h
    simp only [applyOffsetList, Option.some.injEq] at h
    subst h
    rfl
  | cons e es ih =>
    intro l1 h
    simp only [applyOffsetList] at h
    split at h
    · rename_i e1 es1 he hes
      simp only [Option.some.injEq] at h
      subst h
      simp only [applyOffsetList]
      rw [applyOffsetEntity_inv off e e1 he, ih es1 hes]
    · simp at h

-- ===== BLOCK TABLE AND DOCUMENT LEMMAS =====

theorem blocks_to_json_mem : ∀ (bs : List RawBlock) (u : String)
    (res : List (String × List Entity)),
    blocks_to_json bs u = .ok res →
    ∀ nb ∈ res, startsStar nb.1 = false ∧ nb.2 ≠ [] ∧
      ∃ rb ∈ bs, entsToJson rb.entities u = .ok nb.2 := by
  intro bs
  induction bs with
  | nil =>
    intro u res h nb hm
    simp only [blocks_to_json, Except.ok.injEq] at h
    subst h
    simp at hm
  | cons b rest ih =>
    intro u res h nb hm
    simp only [blocks_to_json] at h
    split_ifs at h with hanon
    · obtain ⟨f1, f2, rb, hrb, he⟩ := ih u res h nb hm
      exact ⟨f1, f2, rb, List.mem_cons_of_mem b hrb, he⟩
    · split at h
      · simp at h
      · rename_i es hes
        split at h
        · simp at h
        · rename_i bs1 hbs
          simp only [Except.ok.injEq] at h
          by_cases hemp : es.isEmpty
          · rw [if_pos hemp] at h
            subst h
            obtain ⟨f1, f2, rb, hrb, he⟩ := ih u bs1 hbs nb hm
            exact ⟨f1, f2, rb, List.mem_cons_of_mem b hrb, he⟩
          · rw [if_neg hemp] at h
            subst h
            rcases List.mem_cons.mp hm with h1 | h1
            · subst h1
              refine ⟨by simpa using hanon, by simpa using hemp, b, List.mem_cons_self b rest, hes⟩
            · obtain ⟨f1, f2, rb, hrb, he⟩ := ih u bs1 hbs nb h1
              exact ⟨f1, f2, rb, List.mem_cons_of_mem b hrb, he⟩

theorem parse_dxf_ok (f : String) (doc : RawDoc) (d : CADDocument)
    (h : parse_dxf f doc = .ok d) :
    ∃ l, blocks_to_json doc.blocks (unitNameOf doc) = .ok d.blocks ∧
      entsToJson doc.modelspace (unitNameOf doc) = .ok l ∧
      d.offset = computeOffset l ∧
      applyOffsetList (computeOffset l) l = some d.entities := by
  unfold parse_dxf at h
  split at h
  · simp at h
  · rename_i blocks hbl
    split at h
    · simp at h
    · rename_i entities hen
      split at h
      · simp at h
      · rename_i entities1 happ
        simp only [Except.ok.injEq] at h
        subst h
        exact ⟨entities, hbl, hen, rfl, happ⟩

-- ===== CENTERING CORE (shared by the offset claims) =====

theorem centered_core (raws : List RawDxf) (u : String) (l l1 : List Entity)
    (hen : entsToJson raws u = .ok l) (hne : l ≠ [])
    (happ : applyOffsetList (computeOffset l) l = some l1) :
    ∃ mnx mxx mny mxy : ℚ,
      ((allCoords l1).map Prod.fst).min? = some mnx ∧
      ((allCoords l1).map Prod.fst).max? = some mxx ∧
      ((allCoords l1).map Prod.snd).min? = some mny ∧
      ((allCoords l1).map Prod.snd).max? = some mxy ∧
      mnx + mxx = 0 ∧ mny + mxy = 0 := by
  have hcne : allCoords l ≠ [] := by
    cases l with
    | nil => exact absurd rfl hne
    | cons e es =>
      have hg := entsToJson_good raws u (e :: es) hen e (List.mem_cons_self e es)
      have hce := goodE_coords e hg
      simp only [allCoords]
      intro hx
      exact hce (List.append_eq_nil.mp hx).1
  obtain ⟨q, qs, hq⟩ := List.exists_cons_of_ne_nil hcne
  have hxs : (allCoords l).map Prod.fst = q.1 :: qs.map Prod.fst := by rw [hq]; rfl
  have hys : (allCoords l).map Prod.snd = q.2 :: qs.map Prod.snd := by rw [hq]; rfl
  have hmn : ((allCoords l).map Prod.fst).min? = some ((qs.map Prod.fst).foldl min q.1) := by
    rw [hxs]; rfl
  have hmx : ((allCoords l).map Prod.fst).max? = some ((qs.map Prod.fst).foldl max q.1) := by
    rw [hxs]; rfl
  have hmny : ((allCoords l).map Prod.snd).min? = some ((qs.map Prod.snd).foldl min q.2) := by
    rw [hys]; rfl
  have hmxy : ((allCoords l).map Prod.snd).max? = some ((qs.map Prod.snd).foldl max q.2) := by
    rw [hys]; rfl
  have hoffx : (computeOffset l).1 =
      -(((qs.map Prod.fst).foldl min q.1 + (qs.map Prod.fst).foldl max q.1) / 2) := by
    simp only [computeOffset, hmn, hmx, hmny, hmxy]
  have hoffy : (computeOffset l).2 =
      -(((qs.map Prod.snd).foldl min q.2 + (qs.map Prod.snd).foldl max q.2) / 2) := by
    simp only [computeOffset, hmn, hmx, hmny, hmxy]
  have hx1 : (allCoords l1).map Prod.fst =
      ((allCoords l).map Prod.fst).map (fun x => x + (computeOffset l).1) := by
    rw [applyOffsetList_coords _ l l1 happ, List.map_map, List.map_map]
    rfl
  have hy1 : (allCoords l1).map Prod.snd =
      ((allCoords l).map Prod.snd).map (fun x => x + (computeOffset l).2) := by
    rw [applyOffsetList_coords _ l l1 happ, List.map_map, List.map_map]
    rfl
  refine ⟨(qs.map Prod.fst).foldl min q.1 + (computeOffset l).1,
          (qs.map Prod.fst).foldl max q.1 + (computeOffset l).1,
          (qs.map Prod.snd).foldl min q.2 + (computeOffset l).2,
          (qs.map Prod.snd).foldl max q.2 + (computeOffset l).2,
          ?_, ?_, ?_, ?_, ?_, ?_⟩
  · rw [hx1, min?_shift, hmn]; rfl
  · rw [hx1, max?_shift, hmx]; rfl
  · rw [hy1, min?_shift, hmny]; rfl
  · rw [hy1, max?_shift, hmxy]; rfl
  · rw [hoffx]; ring
  · rw [hoffy]; ring

-- ===== CLAIM THEOREMS =====

/-- C2: computeOffset collects every vertex of every geometry entity and
the insertion point of every text and block-reference entity in the
modelspace list (attributes excluded, as allCoords/entityCoords state);
with no coordinates the offset is (0, 0), otherwise it is the negated
bounding-box center, and after applyOffset the bounding box of the
modelspace coordinates is centered on the origin for any non-empty
normalized input. -/
theorem C2_offset_centering :
    (∀ l : List Entity, allCoords l = [] → computeOffset l = (0, 0)) ∧
    (∀ (l : List Entity) (a b c d : ℚ),
      ((allCoords l).map Prod.fst).min? = some a →
      ((allCoords l).map Prod.fst).max? = some b →
      ((allCoords l).map Prod.snd).min? = some c →
      ((allCoords l).map Prod.snd).max? = some d →
      computeOffset l = (-((a + b) / 2), -((c + d) / 2))) ∧
    (∀ (raws : List RawDxf) (u : String) (l l1 : List Entity),
      entsToJson raws u = .ok l → l ≠ [] →
      applyOffsetList (computeOffset l) l = some l1 →
      ∀ mnx mxx mny mxy : ℚ,
        ((allCoords l1).map Prod.fst).min? = some mnx →
        ((allCoords l1).map Prod.fst).max? = some mxx →
        ((allCoords l1).map Prod.snd).min? = some mny →
        ((allCoords l1).map Prod.snd).max? = some mxy →
        mnx + mxx = 0 ∧ mny + mxy = 0) := by
  refine ⟨?_, ?_, ?_⟩
  · intro l h
    simp [computeOffset, h]
  · intro l a b c d ha hb hc hd
    simp only [computeOffset, ha, hb, hc, hd]
  · intro raws u l l1 hen hne happ mnx mxx mny mxy h1 h2 h3 h4
    obtain ⟨a, b, c, d, g1, g2, g3, g4, g5, g6⟩ := centered_core raws u l l1 hen hne happ
    obtain rfl : mnx = a := Option.some.inj (h1.symm.trans g1)
    obtain rfl : mxx = b := Option.some.inj (h2.symm.trans g2)
    obtain rfl : mny = c := Option.some.inj (h3.symm.trans g3)
    obtain rfl : mxy = d := Option.some.inj (h4.symm.trans g4)
    exact ⟨g5, g6⟩

theorem C2_offset_centering_witness :
    entsToJson c2wRaws "Unitless" = .ok [textEnt "a2" "t" (2, 6)] ∧
    ([textEnt "a2" "t" (2, 6)] : List Entity) ≠ [] ∧
    applyOffsetList (computeOffset [textEnt "a2" "t" (2, 6)]) [textEnt "a2" "t" (2, 6)]
      = some [textEnt "a2" "t" (0, 0)] ∧
    ((allCoords [textEnt "a2" "t" (0, 0)]).map Prod.fst).min? = some 0 ∧
    ((allCoords [textEnt "a2" "t" (0, 0)]).map Prod.fst).max? = some 0 ∧
    ((allCoords [textEnt "a2" "t" (0, 0)]).map Prod.snd).min? = some 0 ∧
    ((allCoords [textEnt "a2" "t" (0, 0)]).map Prod.snd).max? = some 0 ∧
    ((0 : ℚ) + 0 = 0 ∧ (0 : ℚ) + 0 = 0) := by
  have he : entsToJson c2wRaws "Unitless" = .ok [textEnt "a2" "t" (2, 6)] := by
    simp [c2wRaws, entsToJson, entity_to_json, textJson, commonOf, get_entity_hex,
          mkTextRaw, textEnt, show pyBlank "t" = false from by decide]
  have hne : ([textEnt "a2" "t" (2, 6)] : List Entity) ≠ [] := by simp
  have ha : applyOffsetList (computeOffset [textEnt "a2" "t" (2, 6)]) [textEnt "a2" "t" (2, 6)]
      = some [textEnt "a2" "t" (0, 0)] := by
    simp [applyOffsetList, applyOffsetEntity, shiftP, computeOffset, allCoords,
          entityCoords, textEnt, List.min?, List.max?]
  have h1 : ((allCoords [textEnt "a2" "t" (0, 0)]).map Prod.fst).min? = some 0 := by decide
  have h2 : ((allCoords [textEnt "a2" "t" (0, 0)]).map Prod.fst).max? = some 0 := by decide
  have h3 : ((allCoords [textEnt "a2" "t" (0, 0)]).map Prod.snd).min? = some 0 := by decide
  have h4 : ((allCoords [textEnt "a2" "t" (0, 0)]).map Prod.snd).max? = some 0 := by decide
  exact ⟨he, hne, ha, h1, h2, h3, h4,
    C2_offset_centering.2.2 c2wRaws "Unitless" _ _ he hne ha 0 0 0 0 h1 h2 h3 h4⟩

/-- C7: recomputing the offset on an already-centered non-empty normalized
modelspace list yields (0, 0). -/
theorem C7_second_offset_zero (raws : List RawDxf) (u : String) (l l1 : List Entity)
    (hen : entsToJson raws u = .ok l) (hne : l ≠ [])
    (happ : applyOffsetList (computeOffset l) l = some l1) :
    computeOffset l1 = (0, 0) := by
  obtain ⟨a, b, c, d, g1, g2, g3, g4, g5, g6⟩ := centered_core raws u l l1 hen hne happ
  simp only [computeOffset, g1, g2, g3, g4, g5, g6]
  norm_num

theorem C7_second_offset_zero_witness :
    entsToJson c7wRaws "Unitless" = .ok [textEnt "a7" "t" (4, 10)] ∧
    ([textEnt "a7" "t" (4, 10)] : List Entity) ≠ [] ∧
    applyOffsetList (computeOffset [textEnt "a7" "t" (4, 10)]) [textEnt "a7" "t" (4, 10)]
      = some [textEnt "a7" "t" (0, 0)] ∧
    computeOffset [textEnt "a7" "t" (0, 0)] = (0, 0) := by
  have he : entsToJson c7wRaws "Unitless" = .ok [textEnt "a7" "t" (4, 10)] := by
    simp [c7wRaws, entsToJson, entity_to_json, textJson, commonOf, get_entity_hex,
          mkTextRaw, textEnt, show pyBlank "t" = false from by decide]
  have hne : ([textEnt "a7" "t" (4, 10)] : List Entity) ≠ [] := by simp
  have ha : applyOffsetList (computeOffset [textEnt "a7" "t" (4, 10)]) [textEnt "a7" "t" (4, 10)]
      = some [textEnt "a7" "t" (0, 0)] := by
    simp [applyOffsetList, applyOffsetEntity, shiftP, computeOffset, allCoords,
          entityCoords, textEnt, List.min?, List.max?]
  exact ⟨he, hne, ha, C7_second_offset_zero c7wRaws "Unitless" _ _ he hne ha⟩

/-- C4: entityColor returns the explicit true color formatted as an rrggbb
hex string when present; otherwise it is absent exactly when the indexed
color equals the by-layer sentinel 256; otherwise the index goes through
the palette mapping _aci_to_hex, with indices outside 0..255 mapping to
"#000000". -/
theorem C4_entity_color (p : RawProps) :
    (p.hasTrueColor = true → get_entity_hex p = some (rgbToHex (int2rgb p.true_color))) ∧
    (p.hasTrueColor = false → (get_entity_hex p = none ↔ p.color = 256)) ∧
    (p.hasTrueColor = false → p.color ≠ 256 →
      get_entity_hex p = some (_aci_to_hex p.color)) ∧
    (p.hasTrueColor = false → p.color ≠ 256 → (p.color < 0 ∨ 255 < p.color) →
      get_entity_hex p = some "#000000") := by
  refine ⟨?_, ?_, ?_, ?_⟩
  · intro h
    simp [get_entity_hex, h]
  · intro h
    by_cases h2 : p.color = 256 <;> simp [get_entity_hex, h, h2]
  · intro h h2
    simp [get_entity_hex, h, h2]
  · intro h h2 h3
    simp [get_entity_hex, h, h2, _aci_to_hex, h3]

theorem C4_entity_color_witness :
    (c4wProps.hasTrueColor = true ∧
      get_entity_hex c4wProps = some (rgbToHex (int2rgb c4wProps.true_color))) ∧
    (c4wProps2.hasTrueColor = false ∧ c4wProps2.color ≠ 256 ∧
      (c4wProps2.color < 0 ∨ 255 < c4wProps2.color) ∧
      get_entity_hex c4wProps2 = some "#000000") :=
  ⟨⟨rfl, (C4_entity_color c4wProps).1 rfl⟩,
   ⟨rfl, by decide, by decide,
    (C4_entity_color c4wProps2).2.2.2 rfl (by decide) (by decide)⟩⟩

/-- C5: length is the rounded sum of consecutive Euclidean distances and 0
below two points; area is the rounded halved absolute shoelace value over
the implicitly closed vertex list and 0 below three points; the two
worked examples from the spec evaluate as stated. -/
theorem C5_metrics :
    (∀ v : List (ℚ × ℚ), v.length < 2 → calculate_length v = 0) ∧
    (∀ v : List (ℚ × ℚ), 2 ≤ v.length → calculate_length v = round4 (distSum v)) ∧
    (∀ v : List (ℚ × ℚ), v.length < 3 → calculate_area v = 0) ∧
    (∀ v : List (ℚ × ℚ), 3 ≤ v.length →
      calculate_area v = round4 ((|shoelace v| / 2 : ℚ) : ℝ)) ∧
    calculate_area [(0, 0), (4, 0), (4, 3), (0, 3)] = 12 ∧
    calculate_length [(0, 0), (3, 0), (3, 4)] = 7 := by
  refine ⟨?_, ?_, ?_, ?_, ?_, ?_⟩
  · intro v h
    simp only [calculate_length]
    rw [if_pos h]
  · intro v h
    simp only [calculate_length]
    rw [if_neg (by omega)]
  · intro v h
    simp only [calculate_area]
    rw [if_pos h]
  · intro v h
    simp only [calculate_area]
    rw [if_neg (by omega)]
  · have hs : shoelace ([(0, 0), (4, 0), (4, 3), (0, 3)] : List (ℚ × ℚ)) = 24 := by
      simp only [shoelace, crossSum]
      norm_num
    simp only [calculate_area, hs]
    rw [if_neg (by norm_num)]
    have h12 : ((|(24 : ℚ)| / 2 : ℚ) : ℝ) = ((12 : ℤ) : ℝ) := by norm_num
    rw [h12, round4_intCast]
    norm_num
  · simp only [calculate_length, distSum, segLen]
    rw [if_neg (by norm_num)]
    have h9 : Real.sqrt ((((3 : ℚ) - 0 : ℚ) : ℝ) ^ 2 + (((0 : ℚ) - 0 : ℚ) : ℝ) ^ 2) = 3 := by
      rw [show ((((3 : ℚ) - 0 : ℚ) : ℝ) ^ 2 + (((0 : ℚ) - 0 : ℚ) : ℝ) ^ 2) = 3 ^ 2 by
        push_cast; ring]
      exact Real.sqrt_sq (by norm_num)
    have h16 : Real.sqrt ((((3 : ℚ) - 3 : ℚ) : ℝ) ^ 2 + (((4 : ℚ) - 0 : ℚ) : ℝ) ^ 2) = 4 := by
      rw [show ((((3 : ℚ) - 3 : ℚ) : ℝ) ^ 2 + (((4 : ℚ) - 0 : ℚ) : ℝ) ^ 2) = 4 ^ 2 by
        push_cast; ring]
      exact Real.sqrt_sq (by norm_num)
    rw [h9, h16]
    have h7 : (3 : ℝ) + (4 + 0) = ((7 : ℤ) : ℝ) := by norm_num
    rw [h7, round4_intCast]
    norm_num

theorem C5_metrics_witness :
    (([((5 : ℚ), (5 : ℚ))]).length < 2 ∧ calculate_length [((5 : ℚ), (5 : ℚ))] = 0) ∧
    (([((1 : ℚ), (1 : ℚ)), ((2 : ℚ), (2 : ℚ))]).length < 3 ∧
      calculate_area [((1 : ℚ), (1 : ℚ)), ((2 : ℚ), (2 : ℚ))] = 0) :=
  ⟨⟨by decide, C5_metrics.1 _ (by decide)⟩,
   ⟨by decide, C5_metrics.2.2.1 _ (by decide)⟩⟩

/-- C6: a text-like entity whose extracted content is empty or only
whitespace is dropped; a TEXT with content "A-101", insertion point
(10, 5) and rotation 0 yields exactly that text entity, with text,
insertion point and rotation unmodified by normalization. -/
theorem C6_text (p : RawProps) (ats : List RawDxf) (u : String)
    (hty : p.dxftype = "TEXT" ∨ p.dxftype = "MTEXT" ∨ p.dxftype = "ATTRIB" ∨
      p.dxftype = "ATTDEF") :
    (∀ s, p.textContent = some s → pyBlank s = true →
      entity_to_json (.mk p ats) u = .ok none) ∧
    (p.textContent = some "A-101" → p.insert = some (10, 5) → p.rotation = some 0 →
      entity_to_json (.mk p ats) u = .ok (some (.text (commonOf p) "A-101" (10, 5) 0))) := by
  constructor
  · intro s hs hblank
    simp only [entity_to_json, if_pos hty, textJson, hs]
    cases hins : p.insert with
    | none => simp
    | some ins => simp [hblank]
  · intro h1 h2 h3
    simp only [entity_to_json, if_pos hty, textJson, h1, h2, h3]
    simp [show pyBlank "A-101" = false from by decide]

theorem C6_text_witness :
    ((c6blankRaw.props.dxftype = "TEXT" ∨ c6blankRaw.props.dxftype = "MTEXT" ∨
        c6blankRaw.props.dxftype = "ATTRIB" ∨ c6blankRaw.props.dxftype = "ATTDEF") ∧
      c6blankRaw.props.textContent = some "   " ∧ pyBlank "   " = true ∧
      entity_to_json c6blankRaw "Unitless" = .ok none) ∧
    ((c6wRaw.props.dxftype = "TEXT" ∨ c6wRaw.props.dxftype = "MTEXT" ∨
        c6wRaw.props.dxftype = "ATTRIB" ∨ c6wRaw.props.dxftype = "ATTDEF") ∧
      c6wRaw.props.textContent = some "A-101" ∧ c6wRaw.props.insert = some (10, 5) ∧
      c6wRaw.props.rotation = some 0 ∧
      entity_to_json c6wRaw "Unitless"
        = .ok (some (.text (commonOf c6wRaw.props) "A-101" (10, 5) 0))) :=
  ⟨⟨Or.inl rfl, rfl, by decide,
    (C6_text c6blankRaw.props [] "Unitless" (Or.inl rfl)).1 "   " rfl (by decide)⟩,
   ⟨Or.inl rfl, rfl, rfl, rfl,
    (C6_text c6wRaw.props [] "Unitless" (Or.inl rfl)).2 rfl rfl rfl⟩⟩

/-- C1 counterexample: a 10-entity modelspace whose entity number 5 is an
INSERT with a raising insert-attribute access makes the whole conversion
raise — the caller gets an error, not a 9-entity document. -/
theorem C1_counterexample :
    parse_dxf "f" c1badDoc = .error () ∧ c1badDoc.modelspace.length = 10 := by
  constructor
  · simp [parse_dxf, c1badDoc, blocks_to_json, entsToJson, entity_to_json, textJson,
          commonOf, get_entity_hex, mkTextRaw, mkBadInsertRaw, unitNameOf, DXF_UNITS,
          show pyBlank "t" = false from by decide]
  · rfl

/-- C1 (amended): a failure inside the guarded text or geometry branch
drops only that entity — normalization of any non-INSERT entity never
raises, and a 10-entity modelspace whose entity number 5 fails in the text
branch yields exactly 9 output entities with no error; a raising field
access in the INSERT branch, however, escapes and aborts the conversion. -/
theorem C1_isolation :
    (∀ (e : RawDxf) (u : String), e.dxftype ≠ "INSERT" →
      exceptOk (entity_to_json e u) = true) ∧
    (parse_dxf "f" c1okDoc).map (fun d => d.entities.length) = .ok 9 ∧
    c1okDoc.modelspace.length = 10 := by
  refine ⟨?_, ?_, ?_⟩
  · intro e u h
    obtain ⟨p, ats⟩ := e
    have h2 : p.dxftype ≠ "INSERT" := by
      simpa [RawDxf.dxftype, RawDxf.props] using h
    simp only [entity_to_json]
    split_ifs <;> rfl
  · simp [parse_dxf, c1okDoc, blocks_to_json, entsToJson, entity_to_json, textJson,
          commonOf, get_entity_hex, mkTextRaw, mkBadTextRaw, unitNameOf, DXF_UNITS,
          applyOffsetList, applyOffsetEntity, Except.map,
          show pyBlank "t" = false from by decide]
  · rfl

theorem C1_isolation_witness :
    (mkTextRaw "hw" "t" (1, 2)).dxftype ≠ "INSERT" ∧
    exceptOk (entity_to_json (mkTextRaw "hw" "t" (1, 2)) "Unitless") = true :=
  ⟨by decide, C1_isolation.1 (mkTextRaw "hw" "t" (1, 2)) "Unitless" (by decide)⟩

/-- C3 counterexample: a geometry entity whose flattening yields exactly
one point is kept, so the output contains a geometry entity with
vertex_count 1 (equal to its number of vertices but smaller than 2). -/
theorem C3_counterexample :
    (parse_dxf "f" c3badDoc).map (fun d => d.entities.map Entity.vcount?)
      = .ok [some 1] ∧
    (parse_dxf "f" c3badDoc).map
        (fun d => d.entities.map (fun e => (Entity.verts? e).map List.length))
      = .ok [some 1] := by
  constructor <;>
    simp [parse_dxf, c3badDoc, blocks_to_json, entsToJson, entity_to_json, textJson,
          geomJson, commonOf, get_entity_hex, mkGeoRaw, unitNameOf, DXF_UNITS,
          applyOffsetList, applyOffsetEntity, Except.map, Entity.vcount?, Entity.verts?]

/-- C3 (amended): every geometry entity present in the output, in
modelspace or in a block entity list, has vertex_count equal to the length
of its vertex list and at least 1; a flattening with zero points is
dropped (goodE records the invariant normalization establishes). -/
theorem C3_geometry_counts (f : String) (doc : RawDoc) (d : CADDocument)
    (h : parse_dxf f doc = .ok d) (ent : Entity)
    (hm : ent ∈ d.entities ∨ ∃ nb ∈ d.blocks, ent ∈ nb.2)
    (n : Nat) (vs : List (ℚ × ℚ))
    (hn : Entity.vcount? ent = some n) (hvs : Entity.verts? ent = some vs) :
    n = vs.length ∧ 1 ≤ n := by
  obtain ⟨l, hbl, hen, hoff, happ⟩ := parse_dxf_ok f doc d h
  have hgood : goodE ent := by
    rcases hm with hm | ⟨nb, hnb, hm⟩
    · obtain ⟨e0, hmem, he0⟩ := applyOffsetList_mem _ l d.entities happ ent hm
      exact applyOffsetEntity_good _ e0 ent he0 (entsToJson_good _ _ l hen e0 hmem)
    · obtain ⟨f1, f2, rb, hrb, he⟩ := blocks_to_json_mem doc.blocks _ d.blocks hbl nb hnb
      exact entsToJson_good _ _ nb.2 he ent hm
  cases ent with
  | text c t ins r => simp [Entity.vcount?] at hn
  | insert c nm ins r s ats => simp [Entity.vcount?] at hn
  | geometry c lk ak len ar vs0 cnt =>
    simp only [Entity.vcount?, Option.some.injEq] at hn
    simp only [Entity.verts?, Option.some.injEq] at hvs
    subst hn
    subst hvs
    obtain ⟨g1, g2⟩ := hgood
    exact ⟨g1, by rw [g1]; exact List.length_pos.mpr g2⟩

theorem C3_geometry_counts_witness :
    parse_dxf "f" c3wDoc = .ok c3wOut ∧ c3wEnt ∈ c3wOut.entities ∧
    Entity.vcount? c3wEnt = some 1 ∧ Entity.verts? c3wEnt = some [(0, 0)] ∧
    (1 = ([((0 : ℚ), (0 : ℚ))]).length ∧ 1 ≤ 1) := by
  have hp : parse_dxf "f" c3wDoc = .ok c3wOut := by
    simp [parse_dxf, c3wDoc, c3wOut, c3wEnt, blocks_to_json, entsToJson, entity_to_json,
          geomJson, commonOf, get_entity_hex, mkGeoRaw, unitNameOf, DXF_UNITS, layersOf,
          computeOffset, allCoords, entityCoords, applyOffsetList, applyOffsetEntity,
          shiftP, calculate_length, calculate_area, List.min?, List.max?]
  have hm : c3wEnt ∈ c3wOut.entities := by
    simp [c3wOut]
  exact ⟨hp, hm, rfl, rfl,
    C3_geometry_counts "f" c3wDoc c3wOut hp c3wEnt (Or.inl hm) 1 [(0, 0)] rfl rfl⟩

/-- C8: in every successfully converted document, no key of the blocks map
starts with the anonymous-block marker "*", and no block with an empty
normalized entity list is ever recorded (so a block whose entities all
normalize to absent is omitted). -/
theorem C8_blocks (f : String) (doc : RawDoc) (d : CADDocument)
    (h : parse_dxf f doc = .ok d) :
    ∀ nb ∈ d.blocks, startsStar nb.1 = false ∧ nb.2 ≠ [] := by
  obtain ⟨l, hbl, hen, hoff, happ⟩ := parse_dxf_ok f doc d h
  intro nb hm
  obtain ⟨f1, f2, _⟩ := blocks_to_json_mem doc.blocks _ d.blocks hbl nb hm
  exact ⟨f1, f2⟩

theorem C8_blocks_witness :
    parse_dxf "f" c8wDoc = .ok c8wOut ∧
    ("B", [textEnt "m3" "t" (1, 1)]) ∈ c8wOut.blocks ∧
    (startsStar "B" = false ∧ ([textEnt "m3" "t" (1, 1)] : List Entity) ≠ []) := by
  have hp : parse_dxf "f" c8wDoc = .ok c8wOut := by
    simp [parse_dxf, c8wDoc, c8wOut, blocks_to_json, entsToJson, entity_to_json,
          textJson, commonOf, get_entity_hex, mkTextRaw, mkBadTextRaw, textEnt,
          unitNameOf, DXF_UNITS, layersOf, computeOffset, allCoords,
          applyOffsetList, List.min?, List.max?,
          show startsStar "*Model_Space" = true from by decide,
          show startsStar "EMPTYB" = false from by decide,
          show startsStar "B" = false from by decide,
          show pyBlank "t" = false from by decide]
  have hm : ("B", [textEnt "m3" "t" (1, 1)]) ∈ c8wOut.blocks := by
    simp [c8wOut]
  exact ⟨hp, hm, C8_blocks "f" c8wDoc c8wOut hp _ hm⟩

/-- C9: the offset pass changes coordinates only — stripping every
coordinate field (vertices and insertion points, including nested
attribute insertion points) from an entity before and after the pass gives
the same result, and the blocks map recorded in the final document is the
normalization output itself, untouched by the pass. -/
theorem C9_frame :
    (∀ (off : ℚ × ℚ) (e e1 : Entity), applyOffsetEntity off e = some e1 →
      stripE e1 = stripE e) ∧
    (∀ (f : String) (doc : RawDoc) (d : CADDocument), parse_dxf f doc = .ok d →
      blocks_to_json doc.blocks (unitNameOf doc) = .ok d.blocks ∧
      ∀ l, entsToJson doc.modelspace (unitNameOf doc) = .ok l →
        stripL d.entities = stripL l) := by
  constructor
  · exact fun off e e1 h => applyOffsetEntity_strip off e e1 h
  · intro f doc d h
    obtain ⟨l0, hbl, hen0, hoff, happ⟩ := parse_dxf_ok f doc d h
    refine ⟨hbl, ?_⟩
    intro l hl
    have hll : l = l0 := by
      rw [hl] at hen0
      exact Except.ok.inj hen0
    subst hll
    exact applyOffsetList_strip _ l d.entities happ

theorem C9_frame_witness :
    applyOffsetEntity (1, 2) (textEnt "e9" "s" (3, 4)) = some (textEnt "e9" "s" (4, 6)) ∧
    stripE (textEnt "e9" "s" (4, 6)) = stripE (textEnt "e9" "s" (3, 4)) ∧
    parse_dxf "f" c9wDoc = .ok c9wOut ∧
    blocks_to_json c9wDoc.blocks (unitNameOf c9wDoc) = .ok c9wOut.blocks := by
  have h1 : applyOffsetEntity (1, 2) (textEnt "e9" "s" (3, 4))
      = some (textEnt "e9" "s" (4, 6)) := by
    simp [applyOffsetEntity, shiftP, textEnt]
    norm_num
  have hp : parse_dxf "f" c9wDoc = .ok c9wOut := by
    simp [parse_dxf, c9wDoc, c9wOut, blocks_to_json, entsToJson, entity_to_json,
          textJson, commonOf, get_entity_hex, mkTextRaw, textEnt, unitNameOf,
          DXF_UNITS, layersOf, computeOffset, allCoords, entityCoords,
          applyOffsetList, applyOffsetEntity, shiftP, List.min?, List.max?,
          show pyBlank "t" = false from by decide]
  exact ⟨h1, C9_frame.1 (1, 2) _ _ h1, hp, (C9_frame.2 "f" c9wDoc c9wOut hp).1⟩

/-- C10: the document offset field is exactly the translation applied —
negating it and applying the offset pass again to the final modelspace
entities recovers precisely the normalized entities from before
recentering. -/
theorem C10_offset_inverse (f : String) (doc : RawDoc) (d : CADDocument)
    (h : parse_dxf f doc = .ok d) (l : List Entity)
    (hl : entsToJson doc.modelspace (unitNameOf doc) = .ok l) :
    d.offset = computeOffset l ∧
    applyOffsetList (negP d.offset) d.entities = some l := by
  obtain ⟨l0, hbl, hen0, hoff, happ⟩ := parse_dxf_ok f doc d h
  have hll : l = l0 := by
    rw [hl] at hen0
    exact Except.ok.inj hen0
  subst hll
  refine ⟨hoff, ?_⟩
  rw [hoff]
  exact applyOffsetList_inv _ l d.entities happ

theorem C10_offset_inverse_witness :
    parse_dxf "f" c10wDoc = .ok c10wOut ∧
    entsToJson c10wDoc.modelspace (unitNameOf c10wDoc) = .ok [textEnt "a10" "t" (10, 4)] ∧
    (c10wOut.offset = computeOffset [textEnt "a10" "t" (10, 4)] ∧
      applyOffsetList (negP c10wOut.offset) c10wOut.entities
        = some [textEnt "a10" "t" (10, 4)]) := by
  have hp : parse_dxf "f" c10wDoc = .ok c10wOut := by
    simp [parse_dxf, c10wDoc, c10wOut, blocks_to_json, entsToJson, entity_to_json,
          textJson, commonOf, get_entity_hex, mkTextRaw, textEnt, unitNameOf,
          DXF_UNITS, layersOf, computeOffset, allCoords, entityCoords,
          applyOffsetList, applyOffsetEntity, shiftP, List.min?, List.max?,
          show pyBlank "t" = false from by decide]
  have hen : entsToJson c10wDoc.modelspace (unitNameOf c10wDoc)
      = .ok [textEnt "a10" "t" (10, 4)] := by
    simp [c10wDoc, entsToJson, entity_to_json, textJson, commonOf, get_entity_hex,
          mkTextRaw, textEnt, unitNameOf, DXF_UNITS,
          show pyBlank "t" = false from by decide]
  exact ⟨hp, hen, C10_offset_inverse "f" c10wDoc c10wOut hp _ hen⟩
